import Mathlib

/-!
Verification development for the simqueue database layer
(`api/simqueue/db.py`): an in-memory shallow embedding of the tables and
of the query/update functions, followed by theorems about the claims of
the specification.

Modelling conventions, fixed once for the whole file:
* each SQL table becomes a Lean structure for its row type, and the
  database becomes a record of row lists (insertion order = list order);
* `fetch_one` is `List.head?` of the rows matching the where-clause,
  `fetch_all` is `List.filter`, `offset`/`limit` are `drop`/`take`,
  `update`/`delete` map/filter the row list;
* SQL numeric columns (Float) are modelled as rationals: the code under
  study never performs float arithmetic, it only stores, copies and
  compares these values;
* Date/DateTime columns are modelled as natural numbers (day ordinals);
* Python values that flow through `dict` objects are modelled by the
  dynamic type `PyVal`; SQL equality between operands of different
  runtime kinds (for instance a varchar column against a list-valued
  bind parameter, or an integer column against a UUID) is structural
  equality on `PyVal`, hence false across constructors;
* a Python function body that can raise is modelled in the `Except Err`
  monad; a Python function that only returns a row-or-None is modelled
  with `Option`.
-/

/-- Runtime errors that the modelled Python code can raise;
`parseError` models json.JSONDecodeError (the ParseError of the
spec). -/
inductive Err where
  | indexError
  | typeError
  | keyError
  | sqlError
  | parseError
deriving DecidableEq, Repr

/-- Parsed JSON documents are opaque at this layer: the code stores the
result of the external `json.loads` without inspecting it, so a parsed
document is modelled as a wrapper around the source text.  The parser
itself is an explicit parameter of type `String → Option JsonVal`
wherever the code calls it: `some` is a successful parse, `none` models
a raised json.JSONDecodeError, which the transform surfaces as
`Err.parseError`. -/
structure JsonVal where
  doc : String
deriving DecidableEq, Repr

/-- Row of the `simqueue_dataitem` table. -/
structure DataItemRow where
  id : Nat
  url : String
deriving DecidableEq, Repr

/-- Dynamic Python/SQL values as they appear in the job dictionaries:
None, integers, floats, strings, a list-valued bind parameter, a parsed
JSON document, the transformed resource-usage dictionary
(keys value/units), and a list of data-item dictionaries. -/
inductive PyVal where
  | vnone
  | vnat (n : Nat)
  | vrat (q : ℚ)
  | vstr (s : String)
  | vstrlist (l : List String)
  | vjson (j : JsonVal)
  | vru (value : PyVal) (units : String)
  | vitems (items : List DataItemRow)
deriving DecidableEq, Repr

/-- A Python dict with string keys, in insertion order. -/
abbrev PyDict : Type := List (String × PyVal)

/-- `d.get(k)` returning `Option`: the first entry with the key. -/
def pyGet (d : PyDict) (k : String) : Option PyVal :=
  (List.find? (fun kv => decide (kv.1 = k)) d).map Prod.snd

/-- `d.get(k, v)`: lookup with a default. -/
def pyGetD (d : PyDict) (k : String) (v : PyVal) : PyVal :=
  (pyGet d k).getD v

/-- `d[k] = v`: replace the value in place when the key is present,
append the new entry otherwise (Python dicts keep insertion order). -/
def pySet (d : PyDict) (k : String) (v : PyVal) : PyDict :=
  if (pyGet d k).isSome then
    List.map (fun kv => if kv.1 = k then (k, v) else kv) d
  else
    d ++ [(k, v)]

/-- Python truthiness of the values that are tested by the code under
study: None and the empty string are falsy, zero numbers are falsy,
non-empty containers are truthy. -/
def pyTruthy : PyVal → Bool
  | PyVal.vnone => false
  | PyVal.vnat n => decide (n ≠ 0)
  | PyVal.vrat q => decide (q ≠ 0)
  | PyVal.vstr s => decide (s ≠ "")
  | PyVal.vstrlist l => decide (l ≠ [])
  | PyVal.vjson _ => true
  | PyVal.vru _ _ => true
  | PyVal.vitems l => decide (l ≠ [])

/-- Python truthiness of an optional list parameter (`if value:`):
None and the empty list are falsy. -/
def listTruthy : Option (List String) → Bool
  | some l => decide (l ≠ [])
  | none => false

/-- `m.get(k, d)` on a string-keyed mapping given as an association
list. -/
def lookupD (m : List (String × String)) (k d : String) : String :=
  match List.find? (fun kv => decide (kv.1 = k)) m with
  | some kv => kv.2
  | none => d

/-- Row of the `simqueue_job` table (column order as declared). -/
structure JobRow where
  id : Nat
  code : String
  command : String
  collab_id : String
  user_id : String
  status : String
  hardware_platform : String
  hardware_config : Option String
  timestamp_submission : Nat
  timestamp_completion : Option Nat
  provenance : Option String
  resource_usage : Option ℚ
deriving DecidableEq, Repr

/-- Row of the `simqueue_log` table. -/
structure LogRow where
  job_id : Nat
  content : String
deriving DecidableEq, Repr

/-- Row of the join tables `simqueue_job_input_data` and
`simqueue_job_output_data`. -/
structure JoinRow where
  job_id : Nat
  dataitem_id : Nat
deriving DecidableEq, Repr

/-- Row of the `quotas_project` table; `context` is the UUID primary
key, modelled as a string. -/
structure ProjectRow where
  context : String
  collab : String
  owner : String
  title : String
  abstract : String
  description : String
  duration : Int
  start_date : Option Nat
  accepted : Bool
  submission_date : Option Nat
  decision_date : Option Nat
deriving DecidableEq, Repr

/-- Row of the `quotas_quota` table (column order as declared). -/
structure QuotaRow where
  id : Nat
  units : String
  limit : ℚ
  usage : ℚ
  platform : String
  project_id : String
deriving DecidableEq, Repr

/-- The whole relational store.  `next_quota_id` models the database
sequence behind the integer primary key of `quotas_quota`: inserts that
do not supply an id receive the next sequence value. -/
structure DBState where
  jobs : List JobRow
  logs : List LogRow
  data_items : List DataItemRow
  job_input_data : List JoinRow
  job_output_data : List JoinRow
  projects : List ProjectRow
  quotas : List QuotaRow
  next_quota_id : Nat
deriving DecidableEq, Repr

/-- The empty store. -/
def emptyDB : DBState :=
  { jobs := [], logs := [], data_items := [], job_input_data := [],
    job_output_data := [], projects := [], quotas := [], next_quota_id := 1 }

/-- `dict(result)` for a row of `simqueue_job`: all columns, in the
declared column order. -/
def jobRowToDict (j : JobRow) : PyDict :=
  [("id", PyVal.vnat j.id),
   ("code", PyVal.vstr j.code),
   ("command", PyVal.vstr j.command),
   ("collab_id", PyVal.vstr j.collab_id),
   ("user_id", PyVal.vstr j.user_id),
   ("status", PyVal.vstr j.status),
   ("hardware_platform", PyVal.vstr j.hardware_platform),
   ("hardware_config", (j.hardware_config.map PyVal.vstr).getD PyVal.vnone),
   ("timestamp_submission", PyVal.vnat j.timestamp_submission),
   ("timestamp_completion", (j.timestamp_completion.map PyVal.vnat).getD PyVal.vnone),
   ("provenance", (j.provenance.map PyVal.vstr).getD PyVal.vnone),
   ("resource_usage", (j.resource_usage.map PyVal.vrat).getD PyVal.vnone)]

/-- `transform_fields(job)` from db.py: parse `hardware_config` and
`provenance` when truthy, and when `resource_usage` is not None wrap it
into a value/units dictionary, the units looked up in
`RESOURCE_USAGE_UNITS` with default "hours".  `json.loads` raises
JSONDecodeError on a malformed string (`json_loads` returns `none`,
surfaced as `Err.parseError`) and TypeError on a truthy non-string;
reading a missing `hardware_platform` key raises KeyError. -/
def transform_fields (RESOURCE_USAGE_UNITS : List (String × String))
    (json_loads : String → Option JsonVal) (job : PyDict) : Except Err PyDict :=
  (if pyTruthy (pyGetD job "hardware_config" PyVal.vnone) then
     match pyGetD job "hardware_config" PyVal.vnone with
     | PyVal.vstr s =>
       match json_loads s with
       | some doc => Except.ok (pySet job "hardware_config" (PyVal.vjson doc))
       | none => Except.error Err.parseError
     | _ => Except.error Err.typeError
   else Except.ok job).bind (fun job =>
  (if pyTruthy (pyGetD job "provenance" PyVal.vnone) then
     match pyGetD job "provenance" PyVal.vnone with
     | PyVal.vstr s =>
       match json_loads s with
       | some doc => Except.ok (pySet job "provenance" (PyVal.vjson doc))
       | none => Except.error Err.parseError
     | _ => Except.error Err.typeError
   else Except.ok job).bind (fun job =>
  if pyGetD job "resource_usage" PyVal.vnone ≠ PyVal.vnone then
    match pyGet job "hardware_platform" with
    | none => Except.error Err.keyError
    | some hp =>
      let units := match hp with
        | PyVal.vstr p => lookupD RESOURCE_USAGE_UNITS p "hours"
        | _ => "hours"
      Except.ok (pySet job "resource_usage"
        (PyVal.vru (pyGetD job "resource_usage" PyVal.vnone) units))
  else Except.ok job))

/-- `follow_relationships(job)` from db.py: hydrate `input_data` and
`output_data` by joining the data-item table with the two relation
tables on the id of the job dictionary. -/
def follow_relationships (db : DBState) (job : PyDict) : Except Err PyDict :=
  match pyGet job "id" with
  | none => Except.error Err.keyError
  | some idv =>
    let input_items := db.data_items.filter (fun d =>
      db.job_input_data.any (fun r =>
        decide (d.id = r.dataitem_id) && decide (PyVal.vnat r.job_id = idv)))
    let job := pySet job "input_data" (PyVal.vitems input_items)
    let output_items := db.data_items.filter (fun d =>
      db.job_output_data.any (fun r =>
        decide (d.id = r.dataitem_id) && decide (PyVal.vnat r.job_id = idv)))
    Except.ok (pySet job "output_data" (PyVal.vitems output_items))

/-- `get_list_filter(attr, value)` from db.py: for a non-empty list an
IN-membership clause, otherwise `attr == value[0]`, which indexes the
empty list and raises IndexError. -/
def get_list_filter {ρ : Type} (attr : ρ → String) (value : List String) :
    Except Err (ρ → Bool) :=
  if 0 < value.length then
    Except.ok (fun r => value.contains (attr r))
  else
    match value.get? 0 with
    | some v => Except.ok (fun r => decide (attr r = v))
    | none => Except.error Err.indexError

/-- The value of one projected column of `simqueue_job`, or `none` for
an unknown column name. -/
def column_value (j : JobRow) (field : String) : Option PyVal :=
  pyGet (jobRowToDict j) field

/-- Column projection for the `fields` parameter of `query_jobs`
(spec 4.1: an optional column-projection list); an unknown column name
fails at the store. -/
def select_columns (fs : List String) (j : JobRow) : Except Err PyDict :=
  fs.mapM (fun f =>
    match column_value j f with
    | some v => Except.ok (f, v)
    | none => Except.error Err.sqlError)

/-- `query_jobs(...)` from db.py.  Filters are collected in source
order (status, user_id, hardware_platform, collab_id, date range) and
combined with AND; the status filter compares the varchar column
against the whole list-valued parameter; pagination is offset/limit;
each resulting row is turned into a dict, hydrated by
`follow_relationships` and passed through `transform_fields`. -/
def query_jobs (RESOURCE_USAGE_UNITS : List (String × String))
    (json_loads : String → Option JsonVal)
    (status collab_id user_id hardware_platform : Option (List String))
    (date_range_start date_range_end : Option Nat)
    (fields : Option (List String))
    (from_index size : Nat) (db : DBState) : Except Err (List PyDict) :=
  let statusFilters : List (JobRow → Bool) :=
    if listTruthy status then
      [fun j => decide (PyVal.vstr j.status = PyVal.vstrlist (status.getD []))]
    else []
  (if listTruthy user_id then
     (get_list_filter (fun j => j.user_id) (user_id.getD [])).map (fun c => [c])
   else Except.ok []).bind (fun userFilters =>
  (if listTruthy hardware_platform then
     (get_list_filter (fun j => j.hardware_platform) (hardware_platform.getD [])).map (fun c => [c])
   else Except.ok []).bind (fun hwFilters =>
  (if listTruthy collab_id then
     (get_list_filter (fun j => j.collab_id) (collab_id.getD [])).map (fun c => [c])
   else Except.ok []).bind (fun collabFilters =>
  let dateFilters : List (JobRow → Bool) :=
    match date_range_start, date_range_end with
    | some s, some e =>
        [fun j => decide (s ≤ j.timestamp_submission) && decide (j.timestamp_submission ≤ e)]
    | some s, none => [fun j => decide (s ≤ j.timestamp_submission)]
    | none, some e => [fun j => decide (j.timestamp_submission ≤ e)]
    | none, none => []
  let filters := statusFilters ++ userFilters ++ hwFilters ++ collabFilters ++ dateFilters
  let rows := ((db.jobs.filter (fun j => filters.all (fun f => f j))).drop from_index).take size
  rows.mapM (fun r =>
    (match fields with
     | none => Except.ok (jobRowToDict r)
     | some fs => select_columns fs r).bind (fun d =>
    (follow_relationships db d).bind (fun d =>
    transform_fields RESOURCE_USAGE_UNITS json_loads d))))))

/-- `get_job(job_id)` from db.py: `fetch_one` on the id, then
`dict(result)` — which raises TypeError when the row is absent — then
hydration and field transformation. -/
def get_job (RESOURCE_USAGE_UNITS : List (String × String))
    (json_loads : String → Option JsonVal)
    (job_id : Nat) (db : DBState) : Except Err PyDict :=
  match (db.jobs.filter (fun j => decide (j.id = job_id))).head? with
  | none => Except.error Err.typeError
  | some row =>
    (follow_relationships db (jobRowToDict row)).bind (fun d =>
      transform_fields RESOURCE_USAGE_UNITS json_loads d)

/-- `get_log(job_id)` from db.py: `fetch_one` on the job id, then
`dict(result)` — which raises TypeError when the row is absent. -/
def get_log (job_id : Nat) (db : DBState) : Except Err PyDict :=
  match (db.logs.filter (fun l => decide (l.job_id = job_id))).head? with
  | none => Except.error Err.typeError
  | some row => Except.ok [("job_id", PyVal.vnat row.job_id), ("content", PyVal.vstr row.content)]

/-- Modelled from the spec: the `ProjectStatus` enumeration comes from
`data_models.py`, which is not under src/; section 4.2 of the spec
lists exactly these four derived statuses. -/
inductive ProjectStatus where
  | in_prep
  | under_review
  | rejected
  | accepted
deriving DecidableEq, Repr

/-- The where-clauses that `query_projects` appends for a status value
(db.py lines 227-241), in source order. -/
def project_status_filters : ProjectStatus → List (ProjectRow → Bool)
  | ProjectStatus.accepted =>
      [fun p => decide (p.accepted = true)]
  | ProjectStatus.rejected =>
      [fun p => decide (p.accepted = false),
       fun p => decide (p.decision_date ≠ none)]
  | ProjectStatus.under_review =>
      [fun p => decide (p.accepted = false),
       fun p => decide (p.submission_date ≠ none),
       fun p => decide (p.decision_date = none)]
  | ProjectStatus.in_prep =>
      [fun p => decide (p.accepted = false),
       fun p => decide (p.submission_date = none)]

/-- A project row satisfies all the clauses of a status. -/
def project_matches (st : ProjectStatus) (p : ProjectRow) : Bool :=
  (project_status_filters st).all (fun f => f p)

/-- `transform_project_fields(project)` from db.py: the storage column
`context` is renamed to the public field `id` (popped from its place
and re-added, hence last). -/
structure ProjectOut where
  collab : String
  owner : String
  title : String
  abstract : String
  description : String
  duration : Int
  start_date : Option Nat
  accepted : Bool
  submission_date : Option Nat
  decision_date : Option Nat
  id : String
deriving DecidableEq, Repr

def transform_project_fields (p : ProjectRow) : ProjectOut :=
  { collab := p.collab, owner := p.owner, title := p.title,
    abstract := p.abstract, description := p.description,
    duration := p.duration, start_date := p.start_date,
    accepted := p.accepted, submission_date := p.submission_date,
    decision_date := p.decision_date, id := p.context }

/-- `query_projects(...)` from db.py: status expands to the clause
table above, collab_id/owner_id go through `get_list_filter` when
truthy, pagination is offset/limit, rows pass through
`transform_project_fields`. -/
def query_projects (status : Option ProjectStatus)
    (collab_id owner_id : Option (List String))
    (from_index size : Nat) (db : DBState) : Except Err (List ProjectOut) :=
  let statusFilters : List (ProjectRow → Bool) :=
    match status with
    | some st => project_status_filters st
    | none => []
  (if listTruthy collab_id then
     (get_list_filter (fun p => p.collab) (collab_id.getD [])).map (fun c => [c])
   else Except.ok []).bind (fun collabFilters =>
  (if listTruthy owner_id then
     (get_list_filter (fun p => p.owner) (owner_id.getD [])).map (fun c => [c])
   else Except.ok []).bind (fun ownerFilters =>
  let filters := statusFilters ++ collabFilters ++ ownerFilters
  let rows := ((db.projects.filter (fun p => filters.all (fun f => f p))).drop from_index).take size
  Except.ok (rows.map transform_project_fields)))

/-- The argument dictionary of `post_project`. -/
structure ProjectIn where
  id : String
  collab : String
  owner : String
  title : String
  abstract : String
  description : String
  accepted : Bool
  submitted : Bool
deriving DecidableEq, Repr

/-- `post_project(project)` from db.py: inserts a row with
`context = project[id]`, `duration = 0`,
`submission_date = date.today()` exactly when `project[submitted]` is
truthy and NULL otherwise; `start_date` and `decision_date` are not
supplied (NULL).  The Python function has no return statement, so its
result — the second component here — is None. -/
def post_project (today : Nat) (project : ProjectIn) (db : DBState) :
    DBState × Option ProjectOut :=
  let submission_date := if project.submitted then some today else none
  ({ db with projects := db.projects ++
      [{ context := project.id, collab := project.collab, owner := project.owner,
         title := project.title, abstract := project.abstract,
         description := project.description, duration := 0,
         start_date := none, accepted := project.accepted,
         submission_date := submission_date, decision_date := none }] },
   none)

/-- `get_project(project_id)` from db.py: `fetch_one` on the context
column; the row is transformed when present, otherwise the function
falls through and returns None. -/
def get_project (project_id : String) (db : DBState) : Option ProjectOut :=
  match (db.projects.filter (fun p => decide (p.context = project_id))).head? with
  | some row => some (transform_project_fields row)
  | none => none

/-- `delete_project(project_id)` from db.py: deletes the project rows
with that context; nothing else is touched. -/
def delete_project (project_id : String) (db : DBState) : DBState :=
  { db with projects := db.projects.filter (fun p => !(decide (p.context = project_id))) }

/-- `query_quotas(project_id, from_index, size)` from db.py: with a
truthy project id, the quotas of that project, paginated; with a falsy
project id the whole table, unpaginated. -/
def query_quotas (project_id : Option String) (from_index size : Nat)
    (db : DBState) : List QuotaRow :=
  match project_id with
  | some pid =>
    if pid ≠ "" then
      ((db.quotas.filter (fun q => decide (q.project_id = pid))).drop from_index).take size
    else db.quotas
  | none => db.quotas

/-- `query_deleteonequota(quota_id, project_id)` from db.py: deletes
the quota rows whose integer `id` column equals `quota_id` and whose
UUID `project_id` column equals `project_id`.  Both parameters are
dynamic values: comparisons across runtime kinds are false. -/
def query_deleteonequota (quota_id project_id : PyVal) (db : DBState) : DBState :=
  { db with quotas := db.quotas.filter (fun q =>
      !(decide (PyVal.vnat q.id = quota_id) && decide (PyVal.vstr q.project_id = project_id))) }

/-- `delete_quotas_from_project(project_id)` from db.py: fetches the
quotas of the project and calls `query_deleteonequota(project_id,
result.id)` for each — note that the call passes the project id into
the `quota_id` parameter and the quota id into the `project_id`
parameter, while the signature of `query_deleteonequota` is
`(quota_id, project_id)`. -/
def delete_quotas_from_project (project_id : String) (db : DBState) : DBState :=
  let results := db.quotas.filter (fun q => decide (q.project_id = project_id))
  results.foldl
    (fun acc result => query_deleteonequota (PyVal.vstr project_id) (PyVal.vnat result.id) acc)
    db

/-- `get_quota(quota_id, project_id)` from db.py: `fetch_one` keyed by
the pair, `dict(results)` when present, None otherwise. -/
def get_quota (quota_id : Nat) (project_id : String) (db : DBState) : Option QuotaRow :=
  (db.quotas.filter (fun q =>
      decide (q.id = quota_id) && decide (q.project_id = project_id))).head?

/-- The argument of `post_quotas`. -/
structure QuotaSpec where
  limit : ℚ
  platform : String
  units : String
deriving DecidableEq, Repr

/-- `post_quotas(project_id, quota)` from db.py: inserts a quota row
with the supplied limit/platform/units, `usage = 0`, and the id drawn
from the database sequence. -/
def post_quotas (project_id : String) (quota : QuotaSpec) (db : DBState) : DBState :=
  { db with
    quotas := db.quotas ++
      [{ id := db.next_quota_id, units := quota.units, limit := quota.limit,
         usage := 0, platform := quota.platform, project_id := project_id }],
    next_quota_id := db.next_quota_id + 1 }

/-- The argument dictionary of `put_quotas`. -/
structure QuotaUpdate where
  limit : ℚ
  usage : ℚ
deriving DecidableEq, Repr

/-- `put_quotas(project_id, quota, quota_id)` from db.py: on the rows
keyed by the pair, set `limit` and `usage` from the argument; all other
columns are untouched. -/
def put_quotas (project_id : String) (quota : QuotaUpdate) (quota_id : Nat)
    (db : DBState) : DBState :=
  { db with quotas := db.quotas.map (fun q =>
      if decide (q.id = quota_id) && decide (q.project_id = project_id) then
        { q with limit := quota.limit, usage := quota.usage }
      else q) }

/-- Modelled from the spec: the API layer that exposes
`deleteProject(id)` is not under src/; per spec section 4.2 the
operation must also remove all quotas owned by the project, which with
the available db.py functions means composing
`delete_quotas_from_project` with `delete_project`. -/
def deleteProject (project_id : String) (db : DBState) : DBState :=
  delete_project project_id (delete_quotas_from_project project_id db)

/-! ### Sample data shared by concrete witnesses and counterexamples -/

/-- A sample quota of project "p". -/
def sampleQuota : QuotaRow :=
  { id := 1, units := "core-hours", limit := 100, usage := 0,
    platform := "SpiNNaker", project_id := "p" }

/-- A sample project row, still in preparation. -/
def sampleProject : ProjectRow :=
  { context := "p", collab := "c", owner := "o", title := "t",
    abstract := "a", description := "d", duration := 0, start_date := none,
    accepted := false, submission_date := none, decision_date := none }

/-- A store holding the sample project and its quota. -/
def dbWithQuota : DBState :=
  { emptyDB with projects := [sampleProject], quotas := [sampleQuota], next_quota_id := 2 }

/-- A sample job row with status "a". -/
def sampleJob : JobRow :=
  { id := 1, code := "co", command := "cm", collab_id := "cl", user_id := "u",
    status := "a", hardware_platform := "hw", hardware_config := none,
    timestamp_submission := 5, timestamp_completion := none,
    provenance := none, resource_usage := none }

/-- A store holding the sample job. -/
def dbWithJob : DBState := { emptyDB with jobs := [sampleJob] }

/-- A sample rejected project (submitted, decided, not accepted). -/
def sampleRejected : ProjectRow :=
  { sampleProject with context := "r", submission_date := some 3, decision_date := some 5 }

/-- A sample creation request for `post_project`. -/
def sampleProjectIn : ProjectIn :=
  { id := "p2", collab := "c", owner := "o", title := "t", abstract := "a",
    description := "d", accepted := false, submitted := true }

/-- A stored optional JSON text column does not make the parser fail:
it is absent, empty (falsy, so never parsed), or parseable. -/
def parse_ok (json_loads : String → Option JsonVal) : Option String → Prop
  | some s => s ≠ "" → (json_loads s).isSome = true
  | none => True

/-- A sample parser: fails on the text "bad", succeeds elsewhere. -/
def sampleLoads : String → Option JsonVal :=
  fun s => if s = "bad" then none else some ⟨s⟩

/-- The sample job with a parseable hardware configuration and a zero
resource usage. -/
def sampleJobRU : JobRow :=
  { sampleJob with hardware_config := some "cfg", resource_usage := some 0 }

/-- The transform of `sampleJobRU` under `sampleLoads` and the mapping
"hw" to "core-hours". -/
def sampleTransformedJob : PyDict :=
  [("id", PyVal.vnat 1), ("code", PyVal.vstr "co"), ("command", PyVal.vstr "cm"),
   ("collab_id", PyVal.vstr "cl"), ("user_id", PyVal.vstr "u"), ("status", PyVal.vstr "a"),
   ("hardware_platform", PyVal.vstr "hw"), ("hardware_config", PyVal.vjson ⟨"cfg"⟩),
   ("timestamp_submission", PyVal.vnat 5), ("timestamp_completion", PyVal.vnone),
   ("provenance", PyVal.vnone), ("resource_usage", PyVal.vru (PyVal.vrat 0) "core-hours")]

/-! ### Helper lemmas -/

/-- Inversion of a successful `Except.bind`. -/
theorem except_bind_ok {ε α β : Type} {x : Except ε α} {f : α → Except ε β} {b : β}
    (h : x.bind f = Except.ok b) : ∃ a, x = Except.ok a ∧ f a = Except.ok b := by
  cases x with
  | error e => exact Except.noConfusion h
  | ok a => exact ⟨a, rfl, h⟩

/-- The swapped call inside `delete_quotas_from_project` compares the
integer id column with a UUID and the UUID column with an integer, so
its where-clause matches no row and the delete is a no-op. -/
theorem query_deleteonequota_swapped (pid : String) (n : Nat) (db : DBState) :
    query_deleteonequota (PyVal.vstr pid) (PyVal.vnat n) db = db := by
  unfold query_deleteonequota
  rw [List.filter_eq_self.mpr (fun q _ => by simp)]

/-! ### Claims -/

/-- C2: the claim says `delete_quotas_from_project(p)` deletes every
quota of project p.  The code instead passes its arguments to
`query_deleteonequota` in swapped order, so each per-row delete matches
nothing and the function leaves the store entirely unchanged. -/
theorem C2_delete_quotas_from_project_is_noop
    (project_id : String) (db : DBState) :
    delete_quotas_from_project project_id db = db := by
  unfold delete_quotas_from_project
  generalize db.quotas.filter _ = results
  induction results with
  | nil => rfl
  | cons r t ih =>
    rw [List.foldl_cons, query_deleteonequota_swapped]
    exact ih

/-- C1: the claim says `deleteProject(p)` removes every quota of p so
that `queryQuotas(p, ...)` afterwards returns the empty sequence.  On
the store holding project "p" with one quota, the quota survives the
delete and the query still returns it. -/
theorem C1_cascade_delete_fails :
    query_quotas (some "p") 0 10 (deleteProject "p" dbWithQuota) = [sampleQuota] := by
  decide

/-- C7 counterexample: the claim says `post_project` returns the
created Project record including its identifier; the Python function
has no return statement, so at this concrete input it returns None. -/
theorem C7_post_project_returns_none :
    (post_project 7 sampleProjectIn emptyDB).2 = none := rfl

/-- C7 as amended: `post_project` stores a row with
`submission_date = today` exactly when the caller declares the project
pre-submitted and NULL otherwise, `duration = 0` and the
caller-supplied identifier — a fresh `get_project` on that identifier
returns it — but the function itself returns None, not the created
record. -/
theorem C7_post_project_stores (today : Nat) (pr : ProjectIn) (db : DBState)
    (hfresh : ∀ p ∈ db.projects, p.context ≠ pr.id) :
    (post_project today pr db).2 = none ∧
    get_project pr.id (post_project today pr db).1 =
      some { collab := pr.collab, owner := pr.owner, title := pr.title,
             abstract := pr.abstract, description := pr.description,
             duration := 0, start_date := none, accepted := pr.accepted,
             submission_date := if pr.submitted then some today else none,
             decision_date := none, id := pr.id } := by
  refine ⟨rfl, ?_⟩
  unfold get_project post_project
  rw [List.filter_append, List.filter_eq_nil_iff.mpr (fun p hp => by simp [hfresh p hp])]
  simp [transform_project_fields]

/-- C7 witness for the amended theorem. -/
theorem C7_post_project_stores_witness :
    (∀ p ∈ emptyDB.projects, p.context ≠ sampleProjectIn.id) ∧
    (post_project 7 sampleProjectIn emptyDB).2 = none ∧
    get_project sampleProjectIn.id (post_project 7 sampleProjectIn emptyDB).1 =
      some { collab := "c", owner := "o", title := "t", abstract := "a",
             description := "d", duration := 0, start_date := none,
             accepted := false, submission_date := some 7,
             decision_date := none, id := "p2" } := by
  refine ⟨by simp [emptyDB], ?_⟩
  have h := C7_post_project_stores 7 sampleProjectIn emptyDB (by simp [emptyDB])
  simpa [sampleProjectIn] using h

/-- C3: under the invariant that a set decision date implies a set
submission date, the four status predicates of `query_projects` are
exhaustive and mutually exclusive: every project row matches exactly
one of them. -/
theorem C3_status_partition (p : ProjectRow)
    (hinv : p.decision_date.isSome → p.submission_date.isSome) :
    ∃! st : ProjectStatus, project_matches st p = true := by
  obtain ⟨ctx, col, ow, ti, ab, des, du, std, acc, subd, decd⟩ := p
  cases acc with
  | true =>
    exact ⟨ProjectStatus.accepted,
      by simp [project_matches, project_status_filters],
      fun st h => by cases st <;> simp_all [project_matches, project_status_filters]⟩
  | false =>
    cases subd with
    | none =>
      cases decd with
      | none =>
        exact ⟨ProjectStatus.in_prep,
          by simp [project_matches, project_status_filters],
          fun st h => by cases st <;> simp_all [project_matches, project_status_filters]⟩
      | some d => simp at hinv
    | some s =>
      cases decd with
      | none =>
        exact ⟨ProjectStatus.under_review,
          by simp [project_matches, project_status_filters],
          fun st h => by cases st <;> simp_all [project_matches, project_status_filters]⟩
      | some d =>
        exact ⟨ProjectStatus.rejected,
          by simp [project_matches, project_status_filters],
          fun st h => by cases st <;> simp_all [project_matches, project_status_filters]⟩

/-- C3 witness: the sample rejected project satisfies the invariant
and matches exactly one status. -/
theorem C3_witness :
    (sampleRejected.decision_date.isSome → sampleRejected.submission_date.isSome) ∧
    ∃! st : ProjectStatus, project_matches st sampleRejected = true :=
  ⟨by decide, C3_status_partition sampleRejected (by decide)⟩

/-- C5 counterexample: the claim says every single-item lookup returns
a distinguished absence marker rather than raising; `get_job` on an
absent id applies `dict` to None and raises TypeError instead. -/
theorem C5_get_job_raises_on_absence :
    get_job [] sampleLoads 5 emptyDB = Except.error Err.typeError := rfl

/-- C5 as amended: on an absent identifier, `get_project` and
`get_quota` return the absence marker None, but `get_job` and
`get_log` raise TypeError (they call `dict` on the missing row without
a None check). -/
theorem C5_amended_lookup_absence (RUU : List (String × String))
    (jl : String → Option JsonVal) (db : DBState)
    (jid lid qid : Nat) (pid : String)
    (hj : ∀ j ∈ db.jobs, j.id ≠ jid)
    (hl : ∀ l ∈ db.logs, l.job_id ≠ lid)
    (hp : ∀ p ∈ db.projects, p.context ≠ pid)
    (hq : ∀ q ∈ db.quotas, ¬(q.id = qid ∧ q.project_id = pid)) :
    get_job RUU jl jid db = Except.error Err.typeError ∧
    get_log lid db = Except.error Err.typeError ∧
    get_project pid db = none ∧
    get_quota qid pid db = none := by
  refine ⟨?_, ?_, ?_, ?_⟩
  · unfold get_job
    rw [List.filter_eq_nil_iff.mpr (fun j h => by simp [hj j h])]
    rfl
  · unfold get_log
    rw [List.filter_eq_nil_iff.mpr (fun l h => by simp [hl l h])]
    rfl
  · unfold get_project
    rw [List.filter_eq_nil_iff.mpr (fun p h => by simp [hp p h])]
    rfl
  · unfold get_quota
    rw [List.filter_eq_nil_iff.mpr (fun q h => by
      simp only [Bool.and_eq_true, decide_eq_true_eq, not_and]
      intro h1 h2
      exact hq q h ⟨h1, h2⟩)]
    rfl

/-- C5 witness: the amended behaviour at the empty store. -/
theorem C5_amended_witness :
    get_job [] sampleLoads 5 emptyDB = Except.error Err.typeError ∧
    get_log 5 emptyDB = Except.error Err.typeError ∧
    get_project "x" emptyDB = none ∧
    get_quota 1 "x" emptyDB = none :=
  C5_amended_lookup_absence [] sampleLoads emptyDB 5 5 1 "x"
    (by simp [emptyDB]) (by simp [emptyDB]) (by simp [emptyDB]) (by simp [emptyDB])

/-- C8: `post_quotas` followed by `get_quota` on the created id and
the same project returns a record with usage 0 and the supplied
limit, platform and units. -/
theorem C8_create_get_roundtrip (db : DBState) (pid : String) (spec : QuotaSpec)
    (hfresh : ∀ q ∈ db.quotas, q.id ≠ db.next_quota_id) :
    get_quota db.next_quota_id pid (post_quotas pid spec db) =
      some { id := db.next_quota_id, units := spec.units, limit := spec.limit,
             usage := 0, platform := spec.platform, project_id := pid } := by
  unfold get_quota post_quotas
  rw [List.filter_append,
      List.filter_eq_nil_iff.mpr (fun q h => by simp [hfresh q h])]
  simp

/-- C8 witness: the round trip on the sample store. -/
theorem C8_witness :
    (∀ q ∈ dbWithQuota.quotas, q.id ≠ dbWithQuota.next_quota_id) ∧
    get_quota dbWithQuota.next_quota_id "p"
        (post_quotas "p" { limit := 50, platform := "x", units := "u" } dbWithQuota) =
      some { id := 2, units := "u", limit := 50, usage := 0,
             platform := "x", project_id := "p" } :=
  ⟨by decide, C8_create_get_roundtrip dbWithQuota "p"
      { limit := 50, platform := "x", units := "u" } (by decide)⟩

/-- Auxiliary list fact for C9: updating limit/usage on the rows that
match the (id, project) pair does not change which row `fetch_one`
finds, and only changes its limit/usage fields. -/
theorem filter_head_after_update (qid : Nat) (pid : String) (upd : QuotaUpdate)
    (l : List QuotaRow) (q0 : QuotaRow)
    (h : (l.filter (fun q => decide (q.id = qid) && decide (q.project_id = pid))).head? = some q0) :
    ((l.map (fun q =>
        if decide (q.id = qid) && decide (q.project_id = pid) then
          { q with limit := upd.limit, usage := upd.usage }
        else q)).filter
      (fun q => decide (q.id = qid) && decide (q.project_id = pid))).head? =
      some { q0 with limit := upd.limit, usage := upd.usage } := by
  induction l with
  | nil => exact Option.noConfusion h
  | cons q t ih =>
    simp only [List.map_cons, List.filter_cons] at h ⊢
    cases hqb : (decide (q.id = qid) && decide (q.project_id = pid)) with
    | true =>
      simp only [hqb, if_true, List.head?_cons, Option.some.injEq] at h ⊢
      subst h
      rfl
    | false =>
      simp only [hqb, if_false, Bool.false_eq_true] at h ⊢
      exact ih h

/-- C9: `put_quotas` replaces only the limit and usage fields of the
addressed quota; its platform, units and project reference are exactly
those the quota had before the update. -/
theorem C9_update_preserves_frame (db : DBState) (pid : String) (qid : Nat)
    (upd : QuotaUpdate) (q0 : QuotaRow)
    (h : get_quota qid pid db = some q0) :
    get_quota qid pid (put_quotas pid upd qid db) =
      some { q0 with limit := upd.limit, usage := upd.usage } := by
  unfold get_quota at h ⊢
  unfold put_quotas
  exact filter_head_after_update qid pid upd db.quotas q0 h

/-- C9 witness: the update scenario of the spec on the sample store. -/
theorem C9_witness :
    get_quota 1 "p" dbWithQuota = some sampleQuota ∧
    get_quota 1 "p" (put_quotas "p" { limit := 100, usage := 40 } 1 dbWithQuota) =
      some { sampleQuota with limit := 100, usage := 40 } :=
  ⟨by decide, C9_update_preserves_frame dbWithQuota "p" 1
      { limit := 100, usage := 40 } sampleQuota (by decide)⟩

set_option maxHeartbeats 4000000 in
/-- C6: whenever `transform_fields` returns a transformed record, its
`resource_usage` field is mapped exactly as the claim states: a present
value — zero included — becomes a value/units pair whose units come
from the platform mapping with default "hours", and an absent (NULL)
value stays absent, never defaulted to zero.  The transform does return
whenever the two stored JSON columns are absent, empty or parseable, so
the mapping is not vacuous: a parse failure (ParseError) is its only
obstruction on a raw job row. -/
theorem C6_resource_usage_transform (RUU : List (String × String))
    (jl : String → Option JsonVal) (j : JobRow) :
    (∀ d, transform_fields RUU jl (jobRowToDict j) = Except.ok d →
        pyGet d "resource_usage" = some (match j.resource_usage with
          | some v => PyVal.vru (PyVal.vrat v) (lookupD RUU j.hardware_platform "hours")
          | none => PyVal.vnone)) ∧
    (parse_ok jl j.hardware_config → parse_ok jl j.provenance →
        (transform_fields RUU jl (jobRowToDict j)).isOk = true) := by
  obtain ⟨jid, code, cmd, collab, user, st, hp, hc, ts, tc, prov, ru⟩ := j
  cases hc with
  | none =>
    cases prov with
    | none =>
      cases ru <;>
        exact ⟨fun d hd => by
            first
            | (simp +decide [transform_fields, jobRowToDict, pyGet, pyGetD, pySet,
              pyTruthy, lookupD, parse_ok, Except.bind, List.find?, Except.isOk, Except.toBool, *] at hd
               subst hd
               simp +decide [transform_fields, jobRowToDict, pyGet, pyGetD, pySet,
              pyTruthy, lookupD, parse_ok, Except.bind, List.find?, Except.isOk, Except.toBool])
            | simp +decide [transform_fields, jobRowToDict, pyGet, pyGetD, pySet,
              pyTruthy, lookupD, parse_ok, Except.bind, List.find?, Except.isOk, Except.toBool, *] at hd,
          fun h1 h2 => by
            simp_all +decide [transform_fields, jobRowToDict, pyGet, pyGetD, pySet,
              pyTruthy, lookupD, parse_ok, Except.bind, List.find?, Except.isOk, Except.toBool]⟩
    | some s2 =>
      by_cases hs2 : s2 = ""
      · subst hs2
        cases ru <;>
          exact ⟨fun d hd => by
            first
            | (simp +decide [transform_fields, jobRowToDict, pyGet, pyGetD, pySet,
              pyTruthy, lookupD, parse_ok, Except.bind, List.find?, Except.isOk, Except.toBool, *] at hd
               subst hd
               simp +decide [transform_fields, jobRowToDict, pyGet, pyGetD, pySet,
              pyTruthy, lookupD, parse_ok, Except.bind, List.find?, Except.isOk, Except.toBool])
            | simp +decide [transform_fields, jobRowToDict, pyGet, pyGetD, pySet,
              pyTruthy, lookupD, parse_ok, Except.bind, List.find?, Except.isOk, Except.toBool, *] at hd,
          fun h1 h2 => by
            simp_all +decide [transform_fields, jobRowToDict, pyGet, pyGetD, pySet,
              pyTruthy, lookupD, parse_ok, Except.bind, List.find?, Except.isOk, Except.toBool]⟩
      · cases hjs2 : jl s2 with
        | some jv2 =>
          cases ru <;>
            exact ⟨fun d hd => by
            first
            | (simp +decide [transform_fields, jobRowToDict, pyGet, pyGetD, pySet,
              pyTruthy, lookupD, parse_ok, Except.bind, List.find?, Except.isOk, Except.toBool, *] at hd
               subst hd
               simp +decide [transform_fields, jobRowToDict, pyGet, pyGetD, pySet,
              pyTruthy, lookupD, parse_ok, Except.bind, List.find?, Except.isOk, Except.toBool])
            | simp +decide [transform_fields, jobRowToDict, pyGet, pyGetD, pySet,
              pyTruthy, lookupD, parse_ok, Except.bind, List.find?, Except.isOk, Except.toBool, *] at hd,
          fun h1 h2 => by
            simp_all +decide [transform_fields, jobRowToDict, pyGet, pyGetD, pySet,
              pyTruthy, lookupD, parse_ok, Except.bind, List.find?, Except.isOk, Except.toBool]⟩
        | none =>
          exact ⟨fun d hd => by
            first
            | (simp +decide [transform_fields, jobRowToDict, pyGet, pyGetD, pySet,
              pyTruthy, lookupD, parse_ok, Except.bind, List.find?, Except.isOk, Except.toBool, *] at hd
               subst hd
               simp +decide [transform_fields, jobRowToDict, pyGet, pyGetD, pySet,
              pyTruthy, lookupD, parse_ok, Except.bind, List.find?, Except.isOk, Except.toBool])
            | simp +decide [transform_fields, jobRowToDict, pyGet, pyGetD, pySet,
              pyTruthy, lookupD, parse_ok, Except.bind, List.find?, Except.isOk, Except.toBool, *] at hd,
          fun h1 h2 => by
            simp_all +decide [transform_fields, jobRowToDict, pyGet, pyGetD, pySet,
              pyTruthy, lookupD, parse_ok, Except.bind, List.find?, Except.isOk, Except.toBool]⟩
  | some s1 =>
    by_cases hs1 : s1 = ""
    · subst hs1
      cases prov with
      | none =>
        cases ru <;>
          exact ⟨fun d hd => by
            first
            | (simp +decide [transform_fields, jobRowToDict, pyGet, pyGetD, pySet,
              pyTruthy, lookupD, parse_ok, Except.bind, List.find?, Except.isOk, Except.toBool, *] at hd
               subst hd
               simp +decide [transform_fields, jobRowToDict, pyGet, pyGetD, pySet,
              pyTruthy, lookupD, parse_ok, Except.bind, List.find?, Except.isOk, Except.toBool])
            | simp +decide [transform_fields, jobRowToDict, pyGet, pyGetD, pySet,
              pyTruthy, lookupD, parse_ok, Except.bind, List.find?, Except.isOk, Except.toBool, *] at hd,
          fun h1 h2 => by
            simp_all +decide [transform_fields, jobRowToDict, pyGet, pyGetD, pySet,
              pyTruthy, lookupD, parse_ok, Except.bind, List.find?, Except.isOk, Except.toBool]⟩
      | some s2 =>
        by_cases hs2 : s2 = ""
        · subst hs2
          cases ru <;>
            exact ⟨fun d hd => by
            first
            | (simp +decide [transform_fields, jobRowToDict, pyGet, pyGetD, pySet,
              pyTruthy, lookupD, parse_ok, Except.bind, List.find?, Except.isOk, Except.toBool, *] at hd
               subst hd
               simp +decide [transform_fields, jobRowToDict, pyGet, pyGetD, pySet,
              pyTruthy, lookupD, parse_ok, Except.bind, List.find?, Except.isOk, Except.toBool])
            | simp +decide [transform_fields, jobRowToDict, pyGet, pyGetD, pySet,
              pyTruthy, lookupD, parse_ok, Except.bind, List.find?, Except.isOk, Except.toBool, *] at hd,
          fun h1 h2 => by
            simp_all +decide [transform_fields, jobRowToDict, pyGet, pyGetD, pySet,
              pyTruthy, lookupD, parse_ok, Except.bind, List.find?, Except.isOk, Except.toBool]⟩
        · cases hjs2 : jl s2 with
          | some jv2 =>
            cases ru <;>
              exact ⟨fun d hd => by
            first
            | (simp +decide [transform_fields, jobRowToDict, pyGet, pyGetD, pySet,
              pyTruthy, lookupD, parse_ok, Except.bind, List.find?, Except.isOk, Except.toBool, *] at hd
               subst hd
               simp +decide [transform_fields, jobRowToDict, pyGet, pyGetD, pySet,
              pyTruthy, lookupD, parse_ok, Except.bind, List.find?, Except.isOk, Except.toBool])
            | simp +decide [transform_fields, jobRowToDict, pyGet, pyGetD, pySet,
              pyTruthy, lookupD, parse_ok, Except.bind, List.find?, Except.isOk, Except.toBool, *] at hd,
          fun h1 h2 => by
            simp_all +decide [transform_fields, jobRowToDict, pyGet, pyGetD, pySet,
              pyTruthy, lookupD, parse_ok, Except.bind, List.find?, Except.isOk, Except.toBool]⟩
          | none =>
            exact ⟨fun d hd => by
            first
            | (simp +decide [transform_fields, jobRowToDict, pyGet, pyGetD, pySet,
              pyTruthy, lookupD, parse_ok, Except.bind, List.find?, Except.isOk, Except.toBool, *] at hd
               subst hd
               simp +decide [transform_fields, jobRowToDict, pyGet, pyGetD, pySet,
              pyTruthy, lookupD, parse_ok, Except.bind, List.find?, Except.isOk, Except.toBool])
            | simp +decide [transform_fields, jobRowToDict, pyGet, pyGetD, pySet,
              pyTruthy, lookupD, parse_ok, Except.bind, List.find?, Except.isOk, Except.toBool, *] at hd,
          fun h1 h2 => by
            simp_all +decide [transform_fields, jobRowToDict, pyGet, pyGetD, pySet,
              pyTruthy, lookupD, parse_ok, Except.bind, List.find?, Except.isOk, Except.toBool]⟩
    · cases hjs1 : jl s1 with
      | some jv1 =>
        cases prov with
        | none =>
          cases ru <;>
            exact ⟨fun d hd => by
            first
            | (simp +decide [transform_fields, jobRowToDict, pyGet, pyGetD, pySet,
              pyTruthy, lookupD, parse_ok, Except.bind, List.find?, Except.isOk, Except.toBool, *] at hd
               subst hd
               simp +decide [transform_fields, jobRowToDict, pyGet, pyGetD, pySet,
              pyTruthy, lookupD, parse_ok, Except.bind, List.find?, Except.isOk, Except.toBool])
            | simp +decide [transform_fields, jobRowToDict, pyGet, pyGetD, pySet,
              pyTruthy, lookupD, parse_ok, Except.bind, List.find?, Except.isOk, Except.toBool, *] at hd,
          fun h1 h2 => by
            simp_all +decide [transform_fields, jobRowToDict, pyGet, pyGetD, pySet,
              pyTruthy, lookupD, parse_ok, Except.bind, List.find?, Except.isOk, Except.toBool]⟩
        | some s2 =>
          by_cases hs2 : s2 = ""
          · subst hs2
            cases ru <;>
              exact ⟨fun d hd => by
            first
            | (simp +decide [transform_fields, jobRowToDict, pyGet, pyGetD, pySet,
              pyTruthy, lookupD, parse_ok, Except.bind, List.find?, Except.isOk, Except.toBool, *] at hd
               subst hd
               simp +decide [transform_fields, jobRowToDict, pyGet, pyGetD, pySet,
              pyTruthy, lookupD, parse_ok, Except.bind, List.find?, Except.isOk, Except.toBool])
            | simp +decide [transform_fields, jobRowToDict, pyGet, pyGetD, pySet,
              pyTruthy, lookupD, parse_ok, Except.bind, List.find?, Except.isOk, Except.toBool, *] at hd,
          fun h1 h2 => by
            simp_all +decide [transform_fields, jobRowToDict, pyGet, pyGetD, pySet,
              pyTruthy, lookupD, parse_ok, Except.bind, List.find?, Except.isOk, Except.toBool]⟩
          · cases hjs2 : jl s2 with
            | some jv2 =>
              cases ru <;>
                exact ⟨fun d hd => by
            first
            | (simp +decide [transform_fields, jobRowToDict, pyGet, pyGetD, pySet,
              pyTruthy, lookupD, parse_ok, Except.bind, List.find?, Except.isOk, Except.toBool, *] at hd
               subst hd
               simp +decide [transform_fields, jobRowToDict, pyGet, pyGetD, pySet,
              pyTruthy, lookupD, parse_ok, Except.bind, List.find?, Except.isOk, Except.toBool])
            | simp +decide [transform_fields, jobRowToDict, pyGet, pyGetD, pySet,
              pyTruthy, lookupD, parse_ok, Except.bind, List.find?, Except.isOk, Except.toBool, *] at hd,
          fun h1 h2 => by
            simp_all +decide [transform_fields, jobRowToDict, pyGet, pyGetD, pySet,
              pyTruthy, lookupD, parse_ok, Except.bind, List.find?, Except.isOk, Except.toBool]⟩
            | none =>
              exact ⟨fun d hd => by
            first
            | (simp +decide [transform_fields, jobRowToDict, pyGet, pyGetD, pySet,
              pyTruthy, lookupD, parse_ok, Except.bind, List.find?, Except.isOk, Except.toBool, *] at hd
               subst hd
               simp +decide [transform_fields, jobRowToDict, pyGet, pyGetD, pySet,
              pyTruthy, lookupD, parse_ok, Except.bind, List.find?, Except.isOk, Except.toBool])
            | simp +decide [transform_fields, jobRowToDict, pyGet, pyGetD, pySet,
              pyTruthy, lookupD, parse_ok, Except.bind, List.find?, Except.isOk, Except.toBool, *] at hd,
          fun h1 h2 => by
            simp_all +decide [transform_fields, jobRowToDict, pyGet, pyGetD, pySet,
              pyTruthy, lookupD, parse_ok, Except.bind, List.find?, Except.isOk, Except.toBool]⟩
      | none =>
        exact ⟨fun d hd => by
            first
            | (simp +decide [transform_fields, jobRowToDict, pyGet, pyGetD, pySet,
              pyTruthy, lookupD, parse_ok, Except.bind, List.find?, Except.isOk, Except.toBool, *] at hd
               subst hd
               simp +decide [transform_fields, jobRowToDict, pyGet, pyGetD, pySet,
              pyTruthy, lookupD, parse_ok, Except.bind, List.find?, Except.isOk, Except.toBool])
            | simp +decide [transform_fields, jobRowToDict, pyGet, pyGetD, pySet,
              pyTruthy, lookupD, parse_ok, Except.bind, List.find?, Except.isOk, Except.toBool, *] at hd,
          fun h1 h2 => by
            simp_all +decide [transform_fields, jobRowToDict, pyGet, pyGetD, pySet,
              pyTruthy, lookupD, parse_ok, Except.bind, List.find?, Except.isOk, Except.toBool]⟩

/-- C6 witness: under a concrete parser, the sample job with a
parseable configuration and resource usage zero is transformed, and the
zero is wrapped with the unit registered for platform "hw". -/
theorem C6_resource_usage_transform_witness :
    parse_ok sampleLoads sampleJobRU.hardware_config ∧
    parse_ok sampleLoads sampleJobRU.provenance ∧
    (transform_fields [("hw", "core-hours")] sampleLoads (jobRowToDict sampleJobRU)).isOk = true ∧
    transform_fields [("hw", "core-hours")] sampleLoads (jobRowToDict sampleJobRU) =
      Except.ok sampleTransformedJob ∧
    pyGet sampleTransformedJob "resource_usage" =
      some (PyVal.vru (PyVal.vrat 0) "core-hours") :=
  have p1 : parse_ok sampleLoads sampleJobRU.hardware_config := fun _ => by decide
  have p2 : parse_ok sampleLoads sampleJobRU.provenance := True.intro
  ⟨p1, p2,
   (C6_resource_usage_transform [("hw", "core-hours")] sampleLoads sampleJobRU).2 p1 p2,
   rfl,
   (C6_resource_usage_transform [("hw", "core-hours")] sampleLoads sampleJobRU).1
     sampleTransformedJob rfl⟩

/-- C4: when `query_jobs` receives a status list with two or more
elements, the generated clause compares the varchar status column for
equality against the entire list, so no job record satisfies the filter
and a successful query returns the empty sequence. -/
theorem C4_multi_status_matches_nothing (RUU : List (String × String))
    (jl : String → Option JsonVal)
    (sl : List String) (h2 : 2 ≤ sl.length)
    (collab_id user_id hardware_platform : Option (List String))
    (ds de : Option Nat) (fields : Option (List String)) (fi sz : Nat)
    (db : DBState) (l : List PyDict)
    (hq : query_jobs RUU jl (some sl) collab_id user_id hardware_platform
            ds de fields fi sz db = Except.ok l) :
    l = [] := by
  have hsl : listTruthy (some sl) = true := by
    cases sl with
    | nil => simp at h2
    | cons a t => simp [listTruthy]
  unfold query_jobs at hq
  rw [hsl] at hq
  simp only [if_true] at hq
  obtain ⟨uf, hu, hq⟩ := except_bind_ok hq
  obtain ⟨hf, hh, hq⟩ := except_bind_ok hq
  obtain ⟨cf, hcf, hq⟩ := except_bind_ok hq
  have hall : ∀ (j : JobRow),
      (decide (PyVal.vstr j.status = PyVal.vstrlist ((some sl : Option (List String)).getD []))) = false :=
    fun j => by simp
  simp only [hall, List.all_append, List.all_cons, List.all_nil, Bool.false_and,
    List.filter_false, List.drop_nil, List.take_nil] at hq
  exact (Except.ok.inj hq).symm

/-- C4 witness: against a store holding a job of status "a", the query
with status list ["a", "b"] succeeds and returns nothing. -/
theorem C4_multi_status_matches_nothing_witness :
    2 ≤ (["a", "b"] : List String).length ∧
    query_jobs [] sampleLoads (some ["a", "b"]) none none none none none none 0 10 dbWithJob =
      Except.ok [] ∧
    ([] : List PyDict) = [] :=
  ⟨by decide, by rfl,
   C4_multi_status_matches_nothing [] sampleLoads ["a", "b"] (by decide) none none none
     none none none 0 10 dbWithJob [] (by rfl)⟩

/-- Inversion of a failing `Except.bind`. -/
theorem except_bind_error {ε α β : Type} {x : Except ε α} {f : α → Except ε β} {e : ε}
    (h : x.bind f = Except.error e) :
    x = Except.error e ∨ ∃ a, x = Except.ok a ∧ f a = Except.error e := by
  cases x with
  | error e1 =>
    left
    have he : e1 = e := by simpa [Except.bind] using h
    rw [he]
  | ok a => exact Or.inr ⟨a, rfl, h⟩

/-- A bind cannot fail with an error that neither side produces. -/
theorem except_bind_ne_error {ε α β : Type} {x : Except ε α} {f : α → Except ε β} {e : ε}
    (hx : x ≠ Except.error e) (hf : ∀ a, f a ≠ Except.error e) :
    x.bind f ≠ Except.error e := by
  intro h
  rcases except_bind_error h with h1 | ⟨a, _, h2⟩
  · exact hx h1
  · exact hf a h2

/-- `mapM` cannot fail with an error that the element function never
produces. -/
theorem mapM_ne_error {α β : Type} (f : α → Except Err β) (e : Err)
    (hf : ∀ a, f a ≠ Except.error e) : ∀ (l : List α), l.mapM f ≠ Except.error e := by
  intro l
  induction l with
  | nil => exact fun h => Except.noConfusion h
  | cons a t ih =>
    rw [List.mapM_cons]
    refine except_bind_ne_error (hf a) (fun b => ?_)
    refine except_bind_ne_error ih (fun bs => ?_)
    exact fun h => Except.noConfusion h

theorem transform_fields_ne_indexError (RUU : List (String × String))
    (jl : String → Option JsonVal) (d : PyDict) :
    transform_fields RUU jl d ≠ Except.error Err.indexError := by
  unfold transform_fields
  intro h
  rcases except_bind_error h with h1 | ⟨a, _, h⟩
  · split at h1
    · split at h1
      · split at h1 <;> simp_all
      · simp_all
    · simp_all
  · rcases except_bind_error h with h2 | ⟨b, _, h⟩
    · split at h2
      · split at h2
        · split at h2 <;> simp_all
        · simp_all
      · simp_all
    · split at h
      · split at h <;> simp_all
      · simp_all

theorem select_columns_ne_indexError (fs : List String) (j : JobRow) :
    select_columns fs j ≠ Except.error Err.indexError := by
  unfold select_columns
  refine mapM_ne_error _ _ (fun f => ?_) fs
  cases h : column_value j f <;> simp [h]

theorem follow_relationships_ne_indexError (db : DBState) (d : PyDict) :
    follow_relationships db d ≠ Except.error Err.indexError := by
  unfold follow_relationships
  cases h : pyGet d "id" <;> simp [h]

/-- The optional-list filter branches of the two query functions never
fail: `get_list_filter` is only reached with a non-empty list. -/
theorem list_filter_branch_ok {ρ : Type} (x : Option (List String)) (attr : ρ → String) :
    ∃ cs, (if listTruthy x then
             (get_list_filter attr (x.getD [])).map (fun c => [c])
           else Except.ok []) = Except.ok cs := by
  cases x with
  | none => exact ⟨[], rfl⟩
  | some l =>
    cases l with
    | nil => exact ⟨[], rfl⟩
    | cons a t =>
      simp only [listTruthy, get_list_filter]
      exact ⟨[fun r => decide (attr r = a) || decide (attr r ∈ t)], by simp [Except.map]⟩

/-- C10: an empty list for any of the list-valued filter parameters of
`query_jobs` and `query_projects` behaves exactly like an absent
parameter, and in consequence `get_list_filter` is never reached with
an empty list from these call sites: neither query can fail with the
IndexError of its empty-list branch. -/
theorem C10_empty_list_filter_safe (RUU : List (String × String))
    (jl : String → Option JsonVal)
    (status collab_id user_id hardware_platform owner_id : Option (List String))
    (pst : Option ProjectStatus)
    (ds de : Option Nat) (fields : Option (List String)) (fi sz : Nat) (db : DBState) :
    query_jobs RUU jl status (some []) user_id hardware_platform ds de fields fi sz db =
      query_jobs RUU jl status none user_id hardware_platform ds de fields fi sz db ∧
    query_jobs RUU jl status collab_id (some []) hardware_platform ds de fields fi sz db =
      query_jobs RUU jl status collab_id none hardware_platform ds de fields fi sz db ∧
    query_jobs RUU jl status collab_id user_id (some []) ds de fields fi sz db =
      query_jobs RUU jl status collab_id user_id none ds de fields fi sz db ∧
    query_projects pst (some []) owner_id fi sz db =
      query_projects pst none owner_id fi sz db ∧
    query_projects pst collab_id (some []) fi sz db =
      query_projects pst collab_id none fi sz db ∧
    query_jobs RUU jl status collab_id user_id hardware_platform ds de fields fi sz db ≠
      Except.error Err.indexError ∧
    query_projects pst collab_id owner_id fi sz db ≠ Except.error Err.indexError := by
  refine ⟨rfl, rfl, rfl, rfl, rfl, ?_, ?_⟩
  · unfold query_jobs
    obtain ⟨c1, h1⟩ := list_filter_branch_ok user_id (fun j : JobRow => j.user_id)
    obtain ⟨c2, h2⟩ := list_filter_branch_ok hardware_platform (fun j : JobRow => j.hardware_platform)
    obtain ⟨c3, h3⟩ := list_filter_branch_ok collab_id (fun j : JobRow => j.collab_id)
    rw [h1, h2, h3]
    simp only [Except.bind]
    refine mapM_ne_error _ _ (fun r => ?_) _
    refine except_bind_ne_error ?_ (fun d => ?_)
    · cases fields with
      | none => exact fun h => Except.noConfusion h
      | some fs => exact select_columns_ne_indexError fs r
    · exact except_bind_ne_error (follow_relationships_ne_indexError db d)
        (fun d2 => transform_fields_ne_indexError RUU jl d2)
  · unfold query_projects
    obtain ⟨c1, h1⟩ := list_filter_branch_ok collab_id (fun p : ProjectRow => p.collab)
    obtain ⟨c2, h2⟩ := list_filter_branch_ok owner_id (fun p : ProjectRow => p.owner)
    rw [h1, h2]
    simp [Except.bind]
